import Mathlib

/-!
Shallow embedding of the weather_prediction repository's core:
`data_prep.py` (record loader, condition classifier, season bucketing,
string normalizer, crop threshold catalog) and `app.py` (recommendation
engine, suitability evaluator, rolling-window selection, most-frequent
condition aggregation, crop threshold endpoints).

Modelling conventions:
* numeric weather values (Python floats carrying CSV data) are rationals;
* dates (Python `datetime`) are day ordinals (`Int`), with an explicit
  proleptic-Gregorian conversion for concrete calendar dates;
* strings passing through the normalizer are lists of Unicode code points;
* the process-global mutable `CROP_THRESHOLDS` dict is threaded explicitly
  as state through the endpoint functions that read or mutate it.
-/

/-- Raw daily weather observation as parsed from one CSV row (the input
columns of the files that `load_weather_data` reads; the `datetime` index is
already split into year/month/day components). -/
structure RawRow where
  name : List Nat
  year : Int
  month : Int
  day : Int
  temp : ℚ
  tempmax : ℚ
  tempmin : ℚ
  precip : ℚ
  humidity : ℚ
  solarradiation : ℚ
  cloudcover : ℚ
  windspeed : ℚ
  deriving DecidableEq, Repr

/-- Condition classifier `group_weather_conditions` of `data_prep.py`:
a strict if/elif priority chain, first matching rule wins. -/
def group_weather_conditions (row : RawRow) : String :=
  if row.precip > 4.0 then "rain"
  else if row.cloudcover > 80 then "overcast"
  else if row.cloudcover < 15 ∧ row.solarradiation > 500 then "sunny"
  else if row.cloudcover > 40 ∨ row.humidity > 70 then "partially_cloudy"
  else "clear"

/-- Season bucketing `get_season` of `data_prep.py`: Python list-membership
tests on the month, with a catch-all else branch. -/
def get_season (month : Int) : String :=
  if month ∈ ([1, 2, 3] : List Int) then "JFM"
  else if month ∈ ([4, 5, 6] : List Int) then "AMJ"
  else if month ∈ ([7, 8, 9] : List Int) then "JAS"
  else "OND"

/-- ASCII lowercase map on one Unicode code point (model of Python
`str.lower` on the ASCII range this dataset's tokens use). -/
def lowerCode (c : Nat) : Nat :=
  if 65 ≤ c ∧ c ≤ 90 then c + 32 else c

/-- String normalizer `clean_string_column` of `data_prep.py`, acting on one
value of the column, the string modelled as its list of code points. In the
source's order: replace each space (32) with an underscore (95), remove
commas (44), lowercase. -/
def clean_string_column (l : List Nat) : List Nat :=
  ((l.map fun c => if c = 32 then 95 else c).filter (fun c => c ≠ 44)).map lowerCode

/-- Code points of a Lean string (to feed `String`-valued fields through the
normalizer, mirroring pandas applying it to a string column). -/
def strCodes (s : String) : List Nat :=
  s.data.map Char.toNat

/-- A dataset row after `load_weather_data` enrichment: derived (and then
normalized) condition label, normalized location name, and the season bucket
added by `group_seasons`; `year` and `month` are the index components already
present on the raw row. -/
structure WeatherRow extends RawRow where
  conditions : List Nat
  season : String
  deriving DecidableEq, Repr

/-- Per-record enrichment performed by `load_weather_data`: the conditions
column is computed by `group_weather_conditions` and normalized, the name
column is normalized, and `group_seasons` derives the season from the month. -/
def enrichRow (r : RawRow) : WeatherRow :=
  { r with
    name := clean_string_column r.name
    conditions := clean_string_column (strCodes (group_weather_conditions r))
    season := get_season r.month }

/-- Result of the loader: an error report or the built dataset. The error
constructor exists to state the spec's `DataSourceError` contract; it is for
comparison with the code, whose load path never produces it. -/
inductive LoadResult where
  | err (msg : String)
  | data (rows : List WeatherRow)
  deriving DecidableEq, Repr

/-- `load_weather_data` of `data_prep.py`, over the list of CSV files the
directory glob found (a missing directory produces no glob matches, i.e. the
empty list, exactly as an empty directory does): with no CSV files it prints a
warning and returns an empty DataFrame; otherwise it concatenates all files'
rows and enriches them. -/
def load_weather_data (csv_files : List (List RawRow)) : LoadResult :=
  if csv_files.isEmpty then
    .data []
  else
    .data ((csv_files.flatten).map enrichRow)

/-- Crop threshold entry of `CROP_THRESHOLDS` in `data_prep.py`. The optional
`name` field models the `"name"` key that the `app.py` endpoints may inject
into the stored dict; as loaded, no entry carries it. -/
structure CropThreshold where
  icon : String
  min_temp : ℚ
  max_temp : ℚ
  min_precip : ℚ
  max_precip : ℚ
  min_humidity : ℚ
  max_humidity : ℚ
  min_solarradiation : ℚ
  max_solarradiation : ℚ
  name : Option String := none
  deriving DecidableEq, Repr

/-- The `CROP_THRESHOLDS` catalog of `data_prep.py`, as an association list in
the dict's insertion order. -/
def CROP_THRESHOLDS : List (String × CropThreshold) :=
  [("tea",
    { icon := "🌱", min_temp := 13, max_temp := 25, min_precip := 400, max_precip := 800,
      min_humidity := 70, max_humidity := 90, min_solarradiation := 10, max_solarradiation := 20 }),
   ("coffee",
    { icon := "", min_temp := 15, max_temp := 24, min_precip := 300, max_precip := 600,
      min_humidity := 60, max_humidity := 80, min_solarradiation := 12, max_solarradiation := 22 }),
   ("wheat",
    { icon := "🌾", min_temp := 15, max_temp := 20, min_precip := 300, max_precip := 900,
      min_humidity := 50, max_humidity := 60, min_solarradiation := 14, max_solarradiation := 25 }),
   ("bananas",
    { icon := "🍌", min_temp := 20, max_temp := 30, min_precip := 500, max_precip := 900,
      min_humidity := 60, max_humidity := 90, min_solarradiation := 14, max_solarradiation := 25 }),
   ("rice",
    { icon := "🌾", min_temp := 20, max_temp := 35, min_precip := 600, max_precip := 1200,
      min_humidity := 70, max_humidity := 90, min_solarradiation := 14, max_solarradiation := 26 }),
   ("maize",
    { icon := "🌽", min_temp := 18, max_temp := 30, min_precip := 400, max_precip := 700,
      min_humidity := 50, max_humidity := 80, min_solarradiation := 15, max_solarradiation := 27 }),
   ("beans",
    { icon := "🫘", min_temp := 15, max_temp := 27, min_precip := 300, max_precip := 600,
      min_humidity := 50, max_humidity := 80, min_solarradiation := 13, max_solarradiation := 24 }),
   ("sukuma_wiki",
    { icon := "🥬", min_temp := 15, max_temp := 28, min_precip := 300, max_precip := 700,
      min_humidity := 55, max_humidity := 85, min_solarradiation := 13, max_solarradiation := 24 })]

/-- Python dict lookup `CROP_THRESHOLDS[crop]`, `none` exactly when the
`crop in CROP_THRESHOLDS` membership test fails. -/
def lookupCrop (cat : List (String × CropThreshold)) (crop : String) : Option CropThreshold :=
  (cat.find? (fun p => p.1 == crop)).map Prod.snd

/-- The windowed aggregate statistics that `get_recommendations` computes at
`app.py` lines 36-39 (the means of the window's columns) before rule
evaluation; the rules read only these four values. -/
structure Summary where
  avg_temp : ℚ
  avg_precip : ℚ
  avg_humidity : ℚ
  avg_solarradiation : ℚ
  deriving DecidableEq, Repr

/-- Advisory messages of `get_recommendations` in `app.py`, one constructor
per distinct message string, in source order of the append sites. -/
inductive Advice where
  | plantingHighRain
  | plantingGood
  | tempTooLow
  | lowRainButRaining
  | rainfallTooLow
  | irrigationApply
  | irrigationMonitorWater
  | waterloggingSevere
  | waterloggingRecent
  | fertilizerFavorable
  | fertilizerAfterRain
  | harvestingGood
  | noSpecific
  deriving DecidableEq, Repr

/-- The `is_currently_raining` flag of `app.py` line 49. -/
def is_currently_raining (recent_precip : ℚ) : Prop :=
  recent_precip > 0.5

instance (recent_precip : ℚ) : Decidable (is_currently_raining recent_precip) := by
  unfold is_currently_raining
  infer_instance

/-- Planting rule group of `get_recommendations` (`app.py` lines 51-68), one
exclusive if/elif chain. The threshold fields the chain reads are `max_temp`,
`min_precip` and `max_precip`; `min_temp` is never read by
`get_recommendations`. -/
def planting_rules (s : Summary) (t : CropThreshold) (recent_precip : ℚ) : List Advice :=
  if s.avg_precip > t.max_precip then [.plantingHighRain]
  else if s.avg_temp ≥ t.max_temp ∧ t.min_precip ≤ s.avg_precip ∧ s.avg_precip ≤ t.max_precip then
    [.plantingGood]
  else if s.avg_temp < t.max_temp then [.tempTooLow]
  else if s.avg_precip < t.min_precip then
    (if is_currently_raining recent_precip then [.lowRainButRaining] else [.rainfallTooLow])
  else []

/-- Irrigation rule group of `get_recommendations` (`app.py` lines 70-76). -/
def irrigation_rules (s : Summary) (t : CropThreshold) (recent_precip : ℚ) : List Advice :=
  if s.avg_precip < 0.5 * t.min_precip ∧ ¬ is_currently_raining recent_precip then
    [.irrigationApply]
  else if s.avg_precip < 0.5 * t.min_precip ∧ is_currently_raining recent_precip then
    [.irrigationMonitorWater]
  else []

/-- Waterlogging rule group of `get_recommendations` (`app.py` lines 78-84). -/
def waterlogging_rules (s : Summary) (t : CropThreshold) (recent_precip : ℚ) : List Advice :=
  if s.avg_precip > t.max_precip * 1.2 then [.waterloggingSevere]
  else if recent_precip > t.max_precip * 0.5 then [.waterloggingRecent]
  else []

/-- Fertilizer rule group of `get_recommendations` (`app.py` lines 86-92). -/
def fertilizer_rules (s : Summary) (t : CropThreshold) (recent_precip : ℚ) : List Advice :=
  if 10 ≤ s.avg_temp ∧ s.avg_temp ≤ 29 ∧ s.avg_precip < 10 ∧
      ¬ is_currently_raining recent_precip ∧ recent_precip < 5 then
    [.fertilizerFavorable]
  else if 10 ≤ s.avg_temp ∧ s.avg_temp ≤ 29 ∧ s.avg_precip < 10 ∧
      is_currently_raining recent_precip then
    [.fertilizerAfterRain]
  else []

/-- Harvesting rule group of `get_recommendations` (`app.py` lines 94-96). -/
def harvesting_rules (s : Summary) (t : CropThreshold) (recent_precip : ℚ) : List Advice :=
  if s.avg_precip ≤ t.min_precip ∧ s.avg_humidity ≤ t.max_humidity then [.harvestingGood]
  else []

/-- Rule evaluation of `get_recommendations` (`app.py` lines 47-101), after
the averages have been taken: the five rule groups append their messages to
one list in source order; if none fired, the single fallback message is
returned instead. -/
def recommendationRules (s : Summary) (t : CropThreshold) (recent_precip : ℚ) : List Advice :=
  let recommendations :=
    planting_rules s t recent_precip ++ irrigation_rules s t recent_precip ++
    waterlogging_rules s t recent_precip ++ fertilizer_rules s t recent_precip ++
    harvesting_rules s t recent_precip
  if recommendations = [] then [.noSpecific] else recommendations

/-- `get_recommendations` of `app.py`: the unknown-crop guard of lines 23-24
followed by the rule evaluation; the caller-visible result is either the
structured error dict or the list of advisory messages. -/
def get_recommendations (crop : String) (s : Summary) (recent_precip : ℚ) :
    Except String (List Advice) :=
  match lookupCrop CROP_THRESHOLDS crop with
  | none => .error ("Unsupported crop " ++ crop)
  | some t => .ok (recommendationRules s t recent_precip)

/-- Response of the `/crop_thresholds/<crop>` endpoint: the structured error
dict (HTTP 400) or the threshold payload. -/
inductive CropResponse where
  | failure (msg : String)
  | payload (t : CropThreshold)
  deriving DecidableEq, Repr

/-- `get_crop_thresholds` of `app.py` (lines 219-225, after the route-level
`crop.lower()` input parsing): on a known crop the handler executes
`threshold["name"] = crop` on the dict object stored in `CROP_THRESHOLDS`
and returns that same object, so the call yields both the response and the
resulting catalog state. -/
def get_crop_thresholds (cat : List (String × CropThreshold)) (crop : String) :
    CropResponse × List (String × CropThreshold) :=
  match lookupCrop cat crop with
  | none => (.failure ("Unsupported crop " ++ crop), cat)
  | some t =>
      let updated := { t with name := some crop }
      (.payload updated, cat.map (fun p => if p.1 = crop then (p.1, updated) else p))

/-- `get_all_crops` of `app.py` (lines 200-207): iterates the catalog,
executes `threshold["name"] = crop` on every stored entry, and returns the
list of those (mutated) entries together with the resulting catalog state. -/
def get_all_crops (cat : List (String × CropThreshold)) :
    List CropThreshold × List (String × CropThreshold) :=
  (cat.map (fun p => { p.2 with name := some p.1 }),
   cat.map (fun p => (p.1, { p.2 with name := some p.1 })))

/-- Per-record suitability score of `is_suitable_crop` (`app.py` lines
167-183): one point per threshold range the record's value falls inside,
out of four parameters checked. -/
def matchScore (t : CropThreshold) (r : WeatherRow) : Nat :=
  (if t.min_temp ≤ r.temp ∧ r.temp ≤ t.max_temp then 1 else 0) +
  (if t.min_precip ≤ r.precip ∧ r.precip ≤ t.max_precip then 1 else 0) +
  (if t.min_humidity ≤ r.humidity ∧ r.humidity ≤ t.max_humidity then 1 else 0) +
  (if t.min_solarradiation ≤ r.solarradiation ∧ r.solarradiation ≤ t.max_solarradiation then 1 else 0)

/-- The `score / total >= 0.75` test of `app.py` line 185, with
`total = 4` parameters checked, as in the source. -/
def rowQualifies (t : CropThreshold) (r : WeatherRow) : Bool :=
  decide ((matchScore t r : ℚ) / 4 ≥ 0.75)

/-- The `suitable_seasons` accumulation of `is_suitable_crop`: the records
(each standing for its year+season grouping entry) whose score passes the
0.75 test, in iteration order. -/
def suitable_seasons (weather_data : List WeatherRow) (t : CropThreshold) : List WeatherRow :=
  weather_data.filter (rowQualifies t)

/-- `is_suitable_crop` of `app.py`: true iff the accumulated
`suitable_seasons` list is non-empty (`len(suitable_seasons) > 0`). -/
def is_suitable_crop (weather_data : List WeatherRow) (t : CropThreshold) : Bool :=
  decide ((suitable_seasons weather_data t).length > 0)

/-- Occurrence count of one condition token in a column, as

`value_counts` underlying `Series.mode` computes it. -/
def countTok (l : List String) (tok : String) : Nat :=
  (l.filter (fun s => s == tok)).length

/-- The highest occurrence count over the column. -/
def maxCount (l : List String) : Nat :=
  (l.map (countTok l)).foldr max 0

/-- The set of modes of the column: every distinct token whose count attains
the maximum (pandas `Series.mode` returns exactly these, sorted ascending). -/
def modeList (l : List String) : List String :=
  l.dedup.filter (fun tok => countTok l tok == maxCount l)

/-- Strict lexicographic order on code-point lists: the order numpy (hence
pandas `Series.mode`) sorts string values by. -/
def lexLtCodes : List Nat → List Nat → Bool
  | [], [] => false
  | [], _ :: _ => true
  | _ :: _, [] => false
  | a :: as, b :: bs => if a < b then true else if b < a then false else lexLtCodes as bs

/-- Sort order on condition tokens: lexicographic by Unicode code point. -/
def tokBefore (a b : String) : Bool :=
  lexLtCodes (strCodes a) (strCodes b)

/-- Lexicographic minimum fold (the head of pandas' ascending-sorted result). -/
def minTok (tok : String) (toks : List String) : String :=
  toks.foldl (fun a b => if tokBefore b a then b else a) tok

/-- The most-frequent-condition computation of `get_todays_weather` (lines
275-276) and `get_this_weeks_weather` (lines 317-321) in `app.py`:
`data[col].mode()` returns the modes sorted ascending, `.iloc[0]` takes the
first — the lexicographically smallest mode — and an empty mode series falls
back to the string `"Unknown"`. -/
def mostFrequentCondition (l : List String) : String :=
  match modeList l with
  | [] => "Unknown"
  | tok :: toks => minTok tok toks

/-- Modelled from the spec: the tie-break the specification describes for the
most-frequent-condition computation, "ties broken by
first-encountered-in-iteration-order token" — the first token in input order
whose count attains the maximum. Stated for comparison with
`mostFrequentCondition`, the embedding of the code. -/
def firstEncounteredMode (l : List String) : Option String :=
  l.find? (fun tok => countTok l tok == maxCount l)

/-- `ROLLING_WINDOW_DAYS` of `app.py` line 103. -/
def ROLLING_WINDOW_DAYS : Int := 21

/-- The rolling-window date test of `get_weekly_recommendations` (`app.py`
lines 139-145) on day ordinals: `rolling_window_start` is the window end
minus `ROLLING_WINDOW_DAYS - 1` days, and a record is kept when its date lies
between start and end inclusively. -/
def inRollingWindow (week_end : Int) (d : Int) : Bool :=
  let rolling_window_start := week_end - (ROLLING_WINDOW_DAYS - 1)
  decide (rolling_window_start ≤ d) && decide (d ≤ week_end)

/-- The `rolling_weather` selection of `app.py` lines 142-145: filter the
location's records (paired with their index date as a day ordinal) to the
rolling window. -/
def rolling_weather (rows : List (Int × WeatherRow)) (week_end : Int) :
    List (Int × WeatherRow) :=
  rows.filter (fun p => inRollingWindow week_end p.1)

/-- Day ordinal of a proleptic-Gregorian calendar date (civil-from-days
inverse as used by Python's `datetime.date.toordinal` family, up to a
constant offset; only differences of ordinals matter here). Valid for
positive years, where all intermediate divisions are on nonnegative values. -/
def daysFromCivil (y m d : Int) : Int :=
  let y' := if m ≤ 2 then y - 1 else y
  let era := y' / 400
  let yoe := y' - era * 400
  let mp := (m + 9) % 12
  let doy := (153 * mp + 2) / 5 + d - 1
  let doe := yoe * 365 + yoe / 4 - yoe / 100 + doy
  era * 146097 + doe

/-- The catalog's `tea` entry (the first entry of `CROP_THRESHOLDS`), named
for reuse in concrete statements. -/
def teaThreshold : CropThreshold :=
  { icon := "🌱", min_temp := 13, max_temp := 25, min_precip := 400, max_precip := 800,
    min_humidity := 70, max_humidity := 90, min_solarradiation := 10, max_solarradiation := 20 }

/-! ## Theorems -/

/-- Claim C10: `get_season` is total over all integers and performs no input
validation: every month outside {1,...,9} — including 0, 13 and negative
values, not only {10,11,12} — yields "OND" rather than an error, and every
month maps to one of the four season labels. -/
theorem C10_get_season_total :
    (∀ month : Int, get_season month ∈ (["JFM", "AMJ", "JAS", "OND"] : List String)) ∧
    (∀ month : Int, month ∉ ([1, 2, 3, 4, 5, 6, 7, 8, 9] : List Int) →
      get_season month = "OND") := by
  constructor
  · intro month
    unfold get_season
    split_ifs <;> simp
  · intro month h
    unfold get_season
    split_ifs with h1 h2 h3 <;> simp_all

/-- Witness for C10 at the out-of-range month 13. -/
theorem C10_get_season_total_witness :
    (13 : Int) ∉ ([1, 2, 3, 4, 5, 6, 7, 8, 9] : List Int) ∧ get_season 13 = "OND" :=
  ⟨by decide, C10_get_season_total.2 13 (by decide)⟩

/-- Claim C6: the condition classifier always returns exactly one of the five
labels, evaluated in strict priority order with the first matching rule
winning: rain iff precip > 4.0; else overcast iff cloudcover > 80; else sunny
iff cloudcover < 15 and solarradiation > 500; else partially cloudy iff
cloudcover > 40 or humidity > 70; else clear. In particular a record with
precip = 5 and cloudcover = 90 is classified rain, not overcast. -/
theorem C6_classifier_priority :
    (∀ r : RawRow,
      group_weather_conditions r ∈
        (["rain", "overcast", "sunny", "partially_cloudy", "clear"] : List String) ∧
      (group_weather_conditions r = "rain" ↔ r.precip > 4.0) ∧
      (group_weather_conditions r = "overcast" ↔
        ¬ r.precip > 4.0 ∧ r.cloudcover > 80) ∧
      (group_weather_conditions r = "sunny" ↔
        ¬ r.precip > 4.0 ∧ ¬ r.cloudcover > 80 ∧
        (r.cloudcover < 15 ∧ r.solarradiation > 500)) ∧
      (group_weather_conditions r = "partially_cloudy" ↔
        ¬ r.precip > 4.0 ∧ ¬ r.cloudcover > 80 ∧
        ¬ (r.cloudcover < 15 ∧ r.solarradiation > 500) ∧
        (r.cloudcover > 40 ∨ r.humidity > 70)) ∧
      (group_weather_conditions r = "clear" ↔
        ¬ r.precip > 4.0 ∧ ¬ r.cloudcover > 80 ∧
        ¬ (r.cloudcover < 15 ∧ r.solarradiation > 500) ∧
        ¬ (r.cloudcover > 40 ∨ r.humidity > 70))) ∧
    group_weather_conditions
      { name := [], year := 2024, month := 3, day := 1, temp := 20, tempmax := 25,
        tempmin := 15, precip := 5, humidity := 50, solarradiation := 100,
        cloudcover := 90, windspeed := 5 } = "rain" := by
  constructor
  · intro r
    unfold group_weather_conditions
    split_ifs <;> simp_all
  · norm_num [group_weather_conditions]

/-- Claim C2 counterexample: when the directory glob finds no CSV files (the
directory is missing or contains none), `load_weather_data` returns an empty
dataset — it does not report any error. -/
theorem C2_counterexample : load_weather_data [] = LoadResult.data [] := rfl

/-- Claim C2 amended: when the directory is missing or contains no CSV files,
the load prints a warning and returns an empty dataset instead of failing
with an error; indeed the loader never produces an error result for any
input. -/
theorem C2_amended_loader_no_error :
    load_weather_data [] = LoadResult.data [] ∧
    ∀ csv_files, ∃ rows, load_weather_data csv_files = LoadResult.data rows := by
  refine ⟨rfl, fun csv_files => ?_⟩
  unfold load_weather_data
  by_cases h : csv_files.isEmpty <;> simp [h]

/-- Claim C7: the 21-day rolling window ending on day `week_end` keeps exactly
the records whose date lies in the inclusive range [week_end - 20, week_end];
with the window ending 2024-03-21 it admits exactly the day ordinals of
2024-03-01 through 2024-03-21, including all twenty-one of those dates and
excluding 2024-02-29 and 2024-03-22. -/
theorem C7_rolling_window :
    (∀ week_end d : Int, inRollingWindow week_end d = true ↔
      week_end - 20 ≤ d ∧ d ≤ week_end) ∧
    (∀ (rows : List (Int × WeatherRow)) (week_end : Int) (p : Int × WeatherRow),
      p ∈ rolling_weather rows week_end ↔
        p ∈ rows ∧ week_end - 20 ≤ p.1 ∧ p.1 ≤ week_end) ∧
    (∀ d : Int, inRollingWindow (daysFromCivil 2024 3 21) d = true ↔
      daysFromCivil 2024 3 1 ≤ d ∧ d ≤ daysFromCivil 2024 3 21) ∧
    ((List.range 21).all fun k =>
      inRollingWindow (daysFromCivil 2024 3 21) (daysFromCivil 2024 3 (k + 1))) = true ∧
    inRollingWindow (daysFromCivil 2024 3 21) (daysFromCivil 2024 2 29) = false ∧
    inRollingWindow (daysFromCivil 2024 3 21) (daysFromCivil 2024 3 22) = false := by
  have hbase : ∀ week_end d : Int, inRollingWindow week_end d = true ↔
      week_end - 20 ≤ d ∧ d ≤ week_end := by
    intro week_end d
    unfold inRollingWindow ROLLING_WINDOW_DAYS
    simp only [Bool.and_eq_true, decide_eq_true_eq]
    omega
  refine ⟨hbase, ?_, ?_, by decide, by decide, by decide⟩
  · intro rows week_end p
    simp [rolling_weather, List.mem_filter, hbase]
  · intro d
    rw [hbase]
    have h1 : daysFromCivil 2024 3 21 - 20 = daysFromCivil 2024 3 1 := by decide
    omega

/-- Claim C8: for every crop name not present in the threshold catalog, both
`get_recommendations` and the `get_crop_thresholds` handler return a
structured error result (the catalog itself untouched), and never a silent
empty success. -/
theorem C8_unknown_crop (crop : String) (s : Summary) (recent_precip : ℚ)
    (h : lookupCrop CROP_THRESHOLDS crop = none) :
    get_recommendations crop s recent_precip = .error ("Unsupported crop " ++ crop) ∧
    (∀ advs, get_recommendations crop s recent_precip ≠ .ok advs) ∧
    (get_crop_thresholds CROP_THRESHOLDS crop).1 = .failure ("Unsupported crop " ++ crop) ∧
    (∀ t, (get_crop_thresholds CROP_THRESHOLDS crop).1 ≠ .payload t) ∧
    (get_crop_thresholds CROP_THRESHOLDS crop).2 = CROP_THRESHOLDS := by
  unfold get_recommendations get_crop_thresholds
  rw [h]
  simp

/-- Witness for C8 at the unknown crop name "potato". -/
theorem C8_unknown_crop_witness :
    get_recommendations "potato"
        { avg_temp := 20, avg_precip := 10, avg_humidity := 50, avg_solarradiation := 15 } 0 =
      .error ("Unsupported crop " ++ "potato") ∧
    (∀ advs, get_recommendations "potato"
        { avg_temp := 20, avg_precip := 10, avg_humidity := 50, avg_solarradiation := 15 } 0 ≠
      .ok advs) ∧
    (get_crop_thresholds CROP_THRESHOLDS "potato").1 =
      .failure ("Unsupported crop " ++ "potato") ∧
    (∀ t, (get_crop_thresholds CROP_THRESHOLDS "potato").1 ≠ .payload t) ∧
    (get_crop_thresholds CROP_THRESHOLDS "potato").2 = CROP_THRESHOLDS :=
  C8_unknown_crop "potato"
    { avg_temp := 20, avg_precip := 10, avg_humidity := 50, avg_solarradiation := 15 } 0
    (by rfl)

/-- Claim C5: `is_suitable_crop` returns true iff at least one record (each
record standing for its year+season grouping) has a match score of at least
3 of the 4 range checks; and the source's `score / 4 >= 0.75` test holds of
a record exactly when its integer score is at least 3. -/
theorem C5_is_suitable_iff_three_checks (weather_data : List WeatherRow) (t : CropThreshold) :
    (is_suitable_crop weather_data t = true ↔
      ∃ r ∈ weather_data, 3 ≤ matchScore t r) ∧
    (∀ r : WeatherRow, ((matchScore t r : ℚ) / 4 ≥ 0.75 ↔ 3 ≤ matchScore t r)) := by
  have hscore : ∀ r : WeatherRow, ((matchScore t r : ℚ) / 4 ≥ 0.75 ↔ 3 ≤ matchScore t r) := by
    intro r
    constructor
    · intro h
      have h3 : (3 : ℚ) ≤ (matchScore t r : ℚ) := by
        rw [ge_iff_le, show (0.75 : ℚ) = 3 / 4 by norm_num] at h
        linarith
      exact_mod_cast h3
    · intro h
      have h3 : (3 : ℚ) ≤ (matchScore t r : ℚ) := by exact_mod_cast h
      rw [ge_iff_le, show (0.75 : ℚ) = 3 / 4 by norm_num]
      linarith
  refine ⟨?_, hscore⟩
  unfold is_suitable_crop suitable_seasons rowQualifies
  simp only [decide_eq_true_eq, List.length_pos_iff_exists_mem, List.mem_filter]
  constructor
  · rintro ⟨r, hr, hq⟩
    exact ⟨r, hr, (hscore r).1 hq⟩
  · rintro ⟨r, hr, hq⟩
    exact ⟨r, hr, (hscore r).2 hq⟩

/-- Looking a crop up after rewriting every entry under that key finds the
rewritten threshold (helper for the catalog-mutation analysis). -/
theorem lookupCrop_map_update (cat : List (String × CropThreshold)) (crop : String)
    (t' : CropThreshold) :
    lookupCrop (cat.map (fun p => if p.1 = crop then (p.1, t') else p)) crop =
      (lookupCrop cat crop).map (fun _ => t') := by
  induction cat with
  | nil => rfl
  | cons p rest ih =>
    by_cases h : p.1 = crop
    · simp [lookupCrop, List.find?_cons, h]
    · simp only [lookupCrop, List.map_cons, List.find?_cons, if_neg h] at ih ⊢
      rw [show (p.1 == crop) = false from beq_eq_false_iff_ne.2 h]
      exact ih

/-- Claim C3 counterexample: a single `get_crop_thresholds` query for "tea"
on the freshly loaded catalog changes the stored "tea" entry (it acquires
`name = "tea"`), so the catalog is not immutable under queries. -/
theorem C3_counterexample :
    lookupCrop (get_crop_thresholds CROP_THRESHOLDS "tea").2 "tea" ≠
      lookupCrop CROP_THRESHOLDS "tea" ∧
    (get_crop_thresholds CROP_THRESHOLDS "tea").2 ≠ CROP_THRESHOLDS := by
  constructor <;> decide

/-- Claim C3 amended: the crop threshold catalog is mutable at runtime —
`get_crop_thresholds` on a known crop writes the display name into the stored
catalog entry: afterwards the stored entry equals the old entry with
`name := some crop`, which differs from the stored entry before the query
whenever that entry did not already carry the name. -/
theorem C3_amended_catalog_mutated (cat : List (String × CropThreshold)) (crop : String)
    (t : CropThreshold) (h : lookupCrop cat crop = some t) :
    lookupCrop (get_crop_thresholds cat crop).2 crop = some { t with name := some crop } ∧
    (t.name ≠ some crop →
      lookupCrop (get_crop_thresholds cat crop).2 crop ≠ lookupCrop cat crop) := by
  have h2 : (get_crop_thresholds cat crop).2 =
      cat.map (fun p => if p.1 = crop then (p.1, { t with name := some crop }) else p) := by
    unfold get_crop_thresholds
    rw [h]
  have hl : lookupCrop (get_crop_thresholds cat crop).2 crop =
      some { t with name := some crop } := by
    rw [h2, lookupCrop_map_update, h, Option.map_some']
  refine ⟨hl, fun hn hcontra => ?_⟩
  rw [hl, h] at hcontra
  have : ({ t with name := some crop } : CropThreshold).name = t.name :=
    congrArg CropThreshold.name (Option.some.inj hcontra)
  simp at this
  exact hn this.symm

/-- Witness for C3 amended, at the initial catalog and the crop "tea". -/
theorem C3_amended_catalog_mutated_witness :
    lookupCrop (get_crop_thresholds CROP_THRESHOLDS "tea").2 "tea" =
      some { teaThreshold with name := some "tea" } ∧
    (teaThreshold.name ≠ some "tea" →
      lookupCrop (get_crop_thresholds CROP_THRESHOLDS "tea").2 "tea" ≠
        lookupCrop CROP_THRESHOLDS "tea") :=
  C3_amended_catalog_mutated CROP_THRESHOLDS "tea" teaThreshold (by rfl)

/-- The ASCII lowercase map is idempotent on code points. -/
theorem lowerCode_idem (c : Nat) : lowerCode (lowerCode c) = lowerCode c := by
  unfold lowerCode
  split_ifs <;> omega

/-- Every code point produced by the normalizer is not a space, not a comma,
and already lowercase. -/
theorem clean_string_column_mem (l : List Nat) :
    ∀ c ∈ clean_string_column l, c ≠ 32 ∧ c ≠ 44 ∧ lowerCode c = c := by
  intro c hc
  unfold clean_string_column at hc
  rcases List.mem_map.1 hc with ⟨c', hc', rfl⟩
  rcases List.mem_filter.1 hc' with ⟨hc'', hne44⟩
  rcases List.mem_map.1 hc'' with ⟨c0, _, rfl⟩
  have h44 : (if c0 = 32 then 95 else c0) ≠ 44 := by
    simpa using hne44
  refine ⟨?_, ?_, lowerCode_idem _⟩ <;>
    · unfold lowerCode
      split_ifs at h44 ⊢ <;> omega

/-- The normalizer fixes any string whose code points are all non-space,
non-comma and lowercase. -/
theorem clean_string_column_fixed (l : List Nat)
    (h : ∀ c ∈ l, c ≠ 32 ∧ c ≠ 44 ∧ lowerCode c = c) :
    clean_string_column l = l := by
  induction l with
  | nil => rfl
  | cons c cs ih =>
    obtain ⟨h32, h44, hlow⟩ := h c (List.mem_cons_self c cs)
    have ih' := ih (fun x hx => h x (List.mem_cons_of_mem c hx))
    unfold clean_string_column at ih' ⊢
    simp only [List.map_cons, if_neg h32, List.filter_cons]
    rw [show (decide (c ≠ 44)) = true from decide_eq_true h44]
    simp only [if_true, List.map_cons, hlow]
    rw [ih']

/-- Claim C9: the string normalizer is idempotent — normalizing an
already-normalized token (here: any output of the normalizer) returns it
unchanged, for every input string. -/
theorem C9_normalizer_idempotent (l : List Nat) :
    clean_string_column (clean_string_column l) = clean_string_column l :=
  clean_string_column_fixed (clean_string_column l) (clean_string_column_mem l)

/-- The code-point order is irreflexive. -/
theorem lexLt_irrefl (a : List Nat) : lexLtCodes a a = false := by
  induction a with
  | nil => rfl
  | cons x xs ih => simp [lexLtCodes, ih]

/-- The code-point order is transitive. -/
theorem lexLt_trans {a b c : List Nat} (hab : lexLtCodes a b = true)
    (hbc : lexLtCodes b c = true) : lexLtCodes a c = true := by
  induction a generalizing b c with
  | nil =>
    cases b with
    | nil => exact absurd hab (by simp [lexLtCodes])
    | cons y ys =>
      cases c with
      | nil => exact absurd hbc (by simp [lexLtCodes])
      | cons z zs => rfl
  | cons x xs ih =>
    cases b with
    | nil => exact absurd hab (by simp [lexLtCodes])
    | cons y ys =>
      cases c with
      | nil => exact absurd hbc (by simp [lexLtCodes])
      | cons z zs =>
        simp only [lexLtCodes] at hab hbc ⊢
        by_cases h1 : x < y <;> by_cases h1' : y < x <;>
          by_cases h2 : y < z <;> by_cases h2' : z < y <;>
            by_cases h3 : x < z <;> by_cases h3' : z < x <;>
              simp_all <;> first | omega | exact Or.inr (ih hab hbc)

/-- The code-point order is total: if `a` is not before `b` then `b` is
before `a` or they are equal. -/
theorem lexLt_total {a b : List Nat} (h : lexLtCodes a b = false) :
    lexLtCodes b a = true ∨ a = b := by
  induction a generalizing b with
  | nil =>
    cases b with
    | nil => exact Or.inr rfl
    | cons y ys => exact absurd h (by simp [lexLtCodes])
  | cons x xs ih =>
    cases b with
    | nil => exact Or.inl rfl
    | cons y ys =>
      simp only [lexLtCodes] at h ⊢
      by_cases h1 : x < y
      · rw [if_pos h1] at h
        exact absurd h (by simp)
      · rw [if_neg h1] at h
        by_cases h1' : y < x
        · rw [if_pos h1']
          exact Or.inl rfl
        · rw [if_neg h1'] at h
          rw [if_neg h1', if_neg h1]
          rcases ih h with h' | h'
          · exact Or.inl h'
          · right
            have hxy : x = y := by omega
            rw [hxy, h']

/-- The minimum fold lands on one of its inputs and no input token sorts
strictly before it. -/
theorem minTok_spec (toks : List String) : ∀ tok : String,
    (minTok tok toks = tok ∨ minTok tok toks ∈ toks) ∧
    (∀ x : String, (x = tok ∨ x ∈ toks) → tokBefore x (minTok tok toks) = false) := by
  induction toks with
  | nil =>
    intro tok
    refine ⟨Or.inl rfl, ?_⟩
    rintro x (rfl | hx)
    · simpa [minTok, tokBefore] using lexLt_irrefl (strCodes x)
    · cases hx
  | cons b bs ih =>
    intro tok
    by_cases hbt : tokBefore b tok = true
    · have hstep : minTok tok (b :: bs) = minTok b bs := by
        simp [minTok, hbt]
      obtain ⟨ihmem, ihmin⟩ := ih b
      refine ⟨?_, ?_⟩
      · rw [hstep]
        rcases ihmem with h | h
        · rw [h]; exact Or.inr (List.mem_cons_self b bs)
        · exact Or.inr (List.mem_cons_of_mem b h)
      · rintro x (rfl | hx)
        · rw [hstep]
          have hbm : tokBefore b (minTok b bs) = false := ihmin b (Or.inl rfl)
          by_contra hc
          simp only [Bool.not_eq_false] at hc
          have : tokBefore b (minTok b bs) = true := lexLt_trans hbt hc
          rw [hbm] at this
          exact Bool.false_ne_true this
        · rcases List.mem_cons.1 hx with rfl | hxbs
          · rw [hstep]; exact ihmin x (Or.inl rfl)
          · rw [hstep]; exact ihmin x (Or.inr hxbs)
    · have hbt' : tokBefore b tok = false := by simpa using hbt
      have hstep : minTok tok (b :: bs) = minTok tok bs := by
        simp [minTok, hbt']
      obtain ⟨ihmem, ihmin⟩ := ih tok
      refine ⟨?_, ?_⟩
      · rw [hstep]
        rcases ihmem with h | h
        · exact Or.inl h
        · exact Or.inr (List.mem_cons_of_mem b h)
      · rintro x (rfl | hx)
        · rw [hstep]; exact ihmin x (Or.inl rfl)
        · rcases List.mem_cons.1 hx with rfl | hxbs
          · rw [hstep]
            have htokm : tokBefore tok (minTok tok bs) = false := ihmin tok (Or.inl rfl)
            rcases @lexLt_total (strCodes x) (strCodes tok) hbt' with h' | h'
            · by_contra hc
              simp only [Bool.not_eq_false] at hc
              have : tokBefore tok (minTok tok bs) = true := lexLt_trans h' hc
              rw [htokm] at this
              exact Bool.false_ne_true this
            · show lexLtCodes (strCodes x) (strCodes (minTok tok bs)) = false
              rw [h']
              exact htokm
          · rw [hstep]; exact ihmin x (Or.inr hxbs)

/-- A fold of `max` over a non-empty list of counts is attained by one of
them. -/
theorem foldr_max_mem (ns : List Nat) (h : ns ≠ []) : ns.foldr max 0 ∈ ns := by
  induction ns with
  | nil => exact absurd rfl h
  | cons n tl ih =>
    rcases eq_or_ne tl [] with rfl | htl
    · simp
    · have hrec : (n :: tl).foldr max 0 = max n (tl.foldr max 0) := rfl
      rcases Nat.le_total n (tl.foldr max 0) with hle | hle
      · rw [hrec, Nat.max_eq_right hle]
        exact List.mem_cons_of_mem _ (ih htl)
      · rw [hrec, Nat.max_eq_left hle]
        exact List.mem_cons_self n tl

/-- Every count is bounded by the fold of `max` over the counts. -/
theorem le_foldr_max (ns : List Nat) : ∀ x ∈ ns, x ≤ ns.foldr max 0 := by
  induction ns with
  | nil => intro x hx; cases hx
  | cons n tl ih =>
    intro x hx
    rcases List.mem_cons.1 hx with rfl | hx'
    · show x ≤ max x (tl.foldr max 0)
      exact Nat.le_max_left _ _
    · show x ≤ max n (tl.foldr max 0)
      exact le_trans (ih x hx') (Nat.le_max_right _ _)

/-- Claim C4 counterexample: on the column ["sunny", "rain"] both tokens tie
at count 1; the first-encountered token is "sunny", but the code (pandas
`mode()` sorted ascending, `.iloc[0]`) returns "rain". -/
theorem C4_counterexample :
    firstEncounteredMode ["sunny", "rain"] = some "sunny" ∧
    mostFrequentCondition ["sunny", "rain"] = "rain" ∧
    ("rain" : String) ≠ "sunny" := by
  refine ⟨by decide, by decide, by decide⟩

/-- Claim C4 amended: for every non-empty condition column, the
most-frequent-condition computation returns a token of the input whose
occurrence count is maximal; when several tokens tie for the highest count
the result is the lexicographically smallest (by code point) tied token —
pandas sorts the modes ascending and `.iloc[0]` takes the first — not the
first-encountered one. -/
theorem C4_amended_mode (l : List String) (h : l ≠ []) :
    mostFrequentCondition l ∈ l ∧
    countTok l (mostFrequentCondition l) = maxCount l ∧
    (∀ tok ∈ l, countTok l tok ≤ countTok l (mostFrequentCondition l)) ∧
    (∀ tok ∈ l, countTok l tok = maxCount l →
      tokBefore tok (mostFrequentCondition l) = false) := by
  have hattain : ∃ tok ∈ l, countTok l tok = maxCount l := by
    have hne : l.map (countTok l) ≠ [] := by
      simpa using h
    have hmem := foldr_max_mem (l.map (countTok l)) hne
    rcases List.mem_map.1 hmem with ⟨tok, htok, heq⟩
    exact ⟨tok, htok, heq⟩
  obtain ⟨tok0, htok0, hcnt0⟩ := hattain
  have htok0mode : tok0 ∈ modeList l :=
    List.mem_filter.2 ⟨List.mem_dedup.2 htok0, beq_iff_eq.2 hcnt0⟩
  have hmodene : modeList l ≠ [] := List.ne_nil_of_mem htok0mode
  rcases hml : modeList l with _ | ⟨m, ms⟩
  · exact absurd hml hmodene
  · have hmfc : mostFrequentCondition l = minTok m ms := by
      unfold mostFrequentCondition
      rw [hml]
    obtain ⟨hmem, hmin⟩ := minTok_spec ms m
    have hresmode : mostFrequentCondition l ∈ modeList l := by
      rw [hmfc, hml]
      rcases hmem with h' | h'
      · rw [h']; exact List.mem_cons_self m ms
      · exact List.mem_cons_of_mem m h'
    have hresl : mostFrequentCondition l ∈ l :=
      List.mem_dedup.1 (List.mem_filter.1 hresmode).1
    have hrescnt : countTok l (mostFrequentCondition l) = maxCount l :=
      beq_iff_eq.1 (List.mem_filter.1 hresmode).2
    refine ⟨hresl, hrescnt, ?_, ?_⟩
    · intro tok htok
      rw [hrescnt]
      exact le_foldr_max (l.map (countTok l)) _ (List.mem_map_of_mem (countTok l) htok)
    · intro tok htok hcnt
      have htokmode : tok ∈ modeList l :=
        List.mem_filter.2 ⟨List.mem_dedup.2 htok, beq_iff_eq.2 hcnt⟩
      rw [hml] at htokmode
      rw [hmfc]
      rcases List.mem_cons.1 htokmode with rfl | h'
      · exact hmin tok (Or.inl rfl)
      · exact hmin tok (Or.inr h')

/-- Witness for C4 amended at the column ["sunny", "rain"]. -/
theorem C4_amended_mode_witness :
    mostFrequentCondition ["sunny", "rain"] ∈ (["sunny", "rain"] : List String) ∧
    countTok ["sunny", "rain"] (mostFrequentCondition ["sunny", "rain"]) =
      maxCount ["sunny", "rain"] ∧
    (∀ tok ∈ (["sunny", "rain"] : List String),
      countTok ["sunny", "rain"] tok ≤
        countTok ["sunny", "rain"] (mostFrequentCondition ["sunny", "rain"])) ∧
    (∀ tok ∈ (["sunny", "rain"] : List String),
      countTok ["sunny", "rain"] tok = maxCount ["sunny", "rain"] →
      tokBefore tok (mostFrequentCondition ["sunny", "rain"]) = false) :=
  C4_amended_mode ["sunny", "rain"] (by decide)

/-- For any message other than the fallback, membership in the final
recommendation list is membership in one of the five rule groups. -/
theorem mem_recommendationRules (s : Summary) (t : CropThreshold) (recent_precip : ℚ)
    (a : Advice) (ha : a ≠ .noSpecific) :
    a ∈ recommendationRules s t recent_precip ↔
      a ∈ planting_rules s t recent_precip ∨ a ∈ irrigation_rules s t recent_precip ∨
      a ∈ waterlogging_rules s t recent_precip ∨ a ∈ fertilizer_rules s t recent_precip ∨
      a ∈ harvesting_rules s t recent_precip := by
  simp only [recommendationRules]
  split_ifs with h0
  · rw [List.append_eq_nil, List.append_eq_nil, List.append_eq_nil, List.append_eq_nil] at h0
    obtain ⟨⟨⟨⟨h1, h2⟩, h3⟩, h4⟩, h5⟩ := h0
    simp [h1, h2, h3, h4, h5, ha]
  · simp [List.mem_append, or_assoc]

/-- Neither planting-group message can come from any other rule group. -/
theorem planting_msgs_only_planting (s : Summary) (t : CropThreshold) (recent_precip : ℚ) :
    Advice.plantingGood ∉ irrigation_rules s t recent_precip ∧
    Advice.plantingGood ∉ waterlogging_rules s t recent_precip ∧
    Advice.plantingGood ∉ fertilizer_rules s t recent_precip ∧
    Advice.plantingGood ∉ harvesting_rules s t recent_precip ∧
    Advice.tempTooLow ∉ irrigation_rules s t recent_precip ∧
    Advice.tempTooLow ∉ waterlogging_rules s t recent_precip ∧
    Advice.tempTooLow ∉ fertilizer_rules s t recent_precip ∧
    Advice.tempTooLow ∉ harvesting_rules s t recent_precip := by
  unfold irrigation_rules waterlogging_rules fertilizer_rules harvesting_rules
  split_ifs <;> simp

/-- Inside the planting if/elif chain, once the high-rain branch is excluded,
the good-planting message appears for exactly the second branch's condition
and the temperature-too-low message for exactly the third branch's, both
pivoting on `max_temp`. -/
theorem planting_group_mem (s : Summary) (t : CropThreshold) (recent_precip : ℚ)
    (h : ¬ s.avg_precip > t.max_precip) :
    (Advice.plantingGood ∈ planting_rules s t recent_precip ↔
      s.avg_temp ≥ t.max_temp ∧ t.min_precip ≤ s.avg_precip ∧
        s.avg_precip ≤ t.max_precip) ∧
    (Advice.tempTooLow ∈ planting_rules s t recent_precip ↔
      s.avg_temp < t.max_temp) := by
  unfold planting_rules
  split_ifs with h1 h2 h3 h4 <;> simp_all

/-- Claim C1 counterexample: for the tea threshold (min_temp 13, max_temp 25,
precip range [400, 800]) and a summary with avg_temp 20 and avg_precip 500
(latest precip 0), avg_precip does not exceed max_precip and the claim's
condition avg_temp ≥ min_temp ∧ min_precip ≤ avg_precip ≤ max_precip holds —
yet the code does not emit the good-planting message and does emit the
temperature-too-low message, because its comparisons pivot on max_temp. -/
theorem C1_counterexample :
    ¬ (500 : ℚ) > teaThreshold.max_precip ∧
    ((20 : ℚ) ≥ teaThreshold.min_temp ∧ teaThreshold.min_precip ≤ (500 : ℚ) ∧
      (500 : ℚ) ≤ teaThreshold.max_precip) ∧
    Advice.plantingGood ∉ recommendationRules
      { avg_temp := 20, avg_precip := 500, avg_humidity := 50, avg_solarradiation := 15 }
      teaThreshold 0 ∧
    Advice.tempTooLow ∈ recommendationRules
      { avg_temp := 20, avg_precip := 500, avg_humidity := 50, avg_solarradiation := 15 }
      teaThreshold 0 := by
  have hev : recommendationRules
      { avg_temp := 20, avg_precip := 500, avg_humidity := 50, avg_solarradiation := 15 }
      teaThreshold 0 = [Advice.tempTooLow] := by
    norm_num [recommendationRules, planting_rules, irrigation_rules, waterlogging_rules,
      fertilizer_rules, harvesting_rules, is_currently_raining, teaThreshold]
  refine ⟨by norm_num [teaThreshold], by norm_num [teaThreshold], ?_, ?_⟩ <;> rw [hev] <;> simp

/-- Claim C1 amended: in the planting rule group, when avg_precip is not
greater than threshold.max_precip, the "good conditions for planting" message
is emitted exactly when avg_temp ≥ threshold.max_temp and
threshold.min_precip ≤ avg_precip ≤ threshold.max_precip, and the
"temperature too low" message is emitted exactly when
avg_temp < threshold.max_temp — the comparisons are against the crop's
max_temp (min_temp is never read) — for every summary, threshold and
latest-precip value. -/
theorem C1_amended_planting (s : Summary) (t : CropThreshold) (recent_precip : ℚ)
    (h : ¬ s.avg_precip > t.max_precip) :
    (Advice.plantingGood ∈ recommendationRules s t recent_precip ↔
      s.avg_temp ≥ t.max_temp ∧ t.min_precip ≤ s.avg_precip ∧
        s.avg_precip ≤ t.max_precip) ∧
    (Advice.tempTooLow ∈ recommendationRules s t recent_precip ↔
      s.avg_temp < t.max_temp) := by
  obtain ⟨hg, htl⟩ := planting_group_mem s t recent_precip h
  obtain ⟨n1, n2, n3, n4, n5, n6, n7, n8⟩ := planting_msgs_only_planting s t recent_precip
  rw [mem_recommendationRules s t recent_precip Advice.plantingGood (by simp),
    mem_recommendationRules s t recent_precip Advice.tempTooLow (by simp)]
  constructor
  · simpa [n1, n2, n3, n4] using hg
  · simpa [n5, n6, n7, n8] using htl

/-- Witness for C1 amended, at the tea threshold with avg_temp 20 and
avg_precip 500. -/
theorem C1_amended_planting_witness :
    ¬ (500 : ℚ) > teaThreshold.max_precip ∧
    ((Advice.plantingGood ∈ recommendationRules
        { avg_temp := 20, avg_precip := 500, avg_humidity := 50, avg_solarradiation := 15 }
        teaThreshold 0 ↔
      (20 : ℚ) ≥ teaThreshold.max_temp ∧ teaThreshold.min_precip ≤ (500 : ℚ) ∧
        (500 : ℚ) ≤ teaThreshold.max_precip) ∧
    (Advice.tempTooLow ∈ recommendationRules
        { avg_temp := 20, avg_precip := 500, avg_humidity := 50, avg_solarradiation := 15 }
        teaThreshold 0 ↔
      (20 : ℚ) < teaThreshold.max_temp)) :=
  ⟨by decide,
   C1_amended_planting
     { avg_temp := 20, avg_precip := 500, avg_humidity := 50, avg_solarradiation := 15 }
     teaThreshold 0 (by decide)⟩
